import Mathlib

/-!
Verification of the runnable scripts of the hello-prisma repository.

The repository contains four runnable TypeScript scripts that call a
generated Prisma client:

* `src/queries.ts` (async function `main`): seeds two users with nested
  posts and reads them back;
* `src/example-queries.ts` (async function `main`): a CRUD walkthrough
  that creates, reads, updates and deletes a user with email
  charlie@prisma.io and then prints counts;
* `src/unnamed/part_000` (async function `verify`): a verification
  script with two inner try/catch blocks that early-return on failure;
* `src/unnamed/part_001` (async function `runAllExamples`): an advanced
  examples script (findMany variants, counts, upsert, updateMany,
  $transaction, groupBy).

The embedding models each script body as a term of a small AST of
sequentially awaited ORM calls, console logs, try/catch blocks and early
returns, executed against an oracle that decides which ORM call fails.
The top-level promise chain `body().catch(handler).finally(disconnect)`
is modelled by `runScript`, including the Node semantics that
`process.exit` inside the catch handler terminates the process before
the finally callback can run.
-/

namespace Prisma

/-- The ORM client methods invoked by the four scripts. One `$transaction`
call (the array form in runAllExamples) counts as a single ORM call: the
Prisma promises listed in its argument array are only executed inside the
transaction itself. -/
inductive Method where
  | create
  | findMany
  | findUnique
  | update
  | updateMany
  | upsert
  | delete
  | count
  | groupBy
  | transaction
  | connect
deriving DecidableEq, BEq, Repr

/-- Events observable while a script body runs: the start and completion
of an ORM call, and a console log. -/
inductive Event where
  | begin (m : Method)
  | fin (m : Method)
  | print
deriving DecidableEq, Repr

/-- How a script body (or a block inside it) finishes: falls through
normally, executes an early `return`, or raises an uncaught error. -/
inductive Res where
  | ok
  | retd
  | raised
deriving DecidableEq, BEq, Repr

/-- Abstract syntax of a script body. `call` is an `await`ed ORM call:
the call completes (successfully or by raising) before anything after it
starts. `fire` is an ORM call started without `await` (no script in this
repository uses it; it exists so that sequentiality is a fact about the
scripts rather than about the AST). `tryc b h r` is `try { b } catch { h }`
followed by `r`. `ret` is `return`. `log` is a `console.log`. -/
inductive Prog where
  | done
  | ret
  | log (rest : Prog)
  | call (m : Method) (rest : Prog)
  | fire (m : Method) (rest : Prog)
  | tryc (body : Prog) (handler : Prog) (rest : Prog)
deriving DecidableEq, Repr

/-- A straight-line segment of a script body: logs and awaited calls. -/
inductive Step where
  | log
  | call (m : Method)
deriving DecidableEq, Repr

/-- Builds a straight-line program from a list of steps, ending in `k`. -/
def straight : List Step → Prog → Prog
  | [], k => k
  | .log :: rest, k => .log (straight rest k)
  | .call m :: rest, k => .call m (straight rest k)

/-- Executes a script body. The oracle `o` decides whether the `k`-th ORM
call of the run succeeds (`o k = true`) or raises. Returns the event
trace, the way the body finished, and the number of ORM calls issued.
An awaited call that raises still begins and ends (the rejection is
observed at the `await`), after which control transfers to the nearest
enclosing catch block, or aborts the body. -/
def exec : Prog → (Nat → Bool) → Nat → List Event × Res × Nat
  | .done, _, k => ([], .ok, k)
  | .ret, _, k => ([], .retd, k)
  | .log rest, o, k =>
    let r := exec rest o k
    (.print :: r.1, r.2)
  | .call m rest, o, k =>
    if o k then
      let r := exec rest o (k + 1)
      (.begin m :: .fin m :: r.1, r.2)
    else
      ([.begin m, .fin m], .raised, k + 1)
  | .fire m rest, o, k =>
    let r := exec rest o (k + 1)
    (.begin m :: (r.1 ++ [.fin m]), r.2)
  | .tryc b h rest, o, k =>
    let rb := exec b o k
    match rb.2.1 with
    | .ok =>
      let rr := exec rest o rb.2.2
      (rb.1 ++ rr.1, rr.2)
    | .retd => rb
    | .raised =>
      let rh := exec h o rb.2.2
      match rh.2.1 with
      | .ok =>
        let rr := exec rest o rh.2.2
        (rb.1 ++ rh.1 ++ rr.1, rr.2)
      | .retd => (rb.1 ++ rh.1, .retd, rh.2.2)
      | .raised => (rb.1 ++ rh.1, .raised, rh.2.2)

/-- All ORM call sites of a program, in source order. -/
def progMethods : Prog → List Method
  | .done => []
  | .ret => []
  | .log rest => progMethods rest
  | .call m rest => m :: progMethods rest
  | .fire m rest => m :: progMethods rest
  | .tryc b h rest => progMethods b ++ progMethods h ++ progMethods rest

/-- Whether a program contains at least one console log. -/
def containsLog : Prog → Bool
  | .done => false
  | .ret => false
  | .log _ => true
  | .call _ rest => containsLog rest
  | .fire _ rest => containsLog rest
  | .tryc b h rest => containsLog b || containsLog h || containsLog rest

/-- Number of try/catch blocks in a program. -/
def countTry : Prog → Nat
  | .done => 0
  | .ret => 0
  | .log rest => countTry rest
  | .call _ rest => countTry rest
  | .fire _ rest => countTry rest
  | .tryc b h rest => countTry b + countTry h + countTry rest + 1

/-- Whether every ORM call of the program is awaited. -/
def noFire : Prog → Bool
  | .done => true
  | .ret => true
  | .log rest => noFire rest
  | .call _ rest => noFire rest
  | .fire _ _ => false
  | .tryc b h rest => noFire b && noFire h && noFire rest

/-- Whether the program contains no early `return`. -/
def noRet : Prog → Bool
  | .done => true
  | .ret => false
  | .log rest => noRet rest
  | .call _ rest => noRet rest
  | .fire _ rest => noRet rest
  | .tryc b h rest => noRet b && noRet h && noRet rest

/-- The ORM calls started along a trace, in order. -/
def beginsOf (t : List Event) : List Method :=
  t.filterMap fun e =>
    match e with
    | .begin m => some m
    | _ => none

/-! ## Script bodies, translated from the source files. -/

/-- Body of `main` in src/queries.ts, lines 8-53: a log, two awaited
`user.create` calls (each with nested post creation), a log, an awaited
`user.findMany`, a log, an awaited `post.findMany`, a log. -/
def queriesMain : Prog :=
  straight [.log, .call .create, .call .create, .log,
    .call .findMany, .log, .call .findMany, .log] .done

/-- Body of `main` in src/example-queries.ts, lines 8-89: the CRUD
walkthrough. Calls in source order: `user.create` (charlie, nested post),
`user.findMany`, `user.findUnique`, `post.findMany`, `user.update`,
`user.delete`, and three `count` calls, with console logs between. -/
def exampleMain : Prog :=
  straight [.log, .log, .call .create, .log, .log,
    .call .findMany, .log, .call .findUnique, .log,
    .call .findMany, .log, .log, .call .update, .log, .log,
    .call .delete, .log, .log,
    .call .count, .call .count, .call .count,
    .log, .log, .log, .log] .done

/-- Body of `verify` in src/unnamed/part_000, lines 10-49. Two inner
try/catch blocks: the first around `$connect`, the second around the two
`count` calls; each catch logs and returns early. Afterwards an awaited
`user.findMany` and the result logs (the per-user print loop is modelled
as a single log). -/
def verify : Prog :=
  .log (.log (
    .tryc (.call .connect (.log .done)) (.log .ret)
      (.log (
        .tryc (.call .count (.call .count (.log (.log .done)))) (.log .ret)
          (.log (.call .findMany (.log (.log (.log .done)))))))))

/-- Body of `runAllExamples` in src/unnamed/part_001, lines 466-668.
Calls in source order: seven `findMany` (advanced where clauses,
pagination, select, relations), three `count`, one `findMany` with a
relation count, `upsert`, `updateMany`, one `$transaction` (array form
containing a user update and a post create), one `findMany` (date
filter), and one `groupBy`; each forEach print loop is modelled as a
single log. -/
def runAllExamples : Prog :=
  straight [.log, .log, .log,
    .call .findMany, .log,
    .call .findMany, .log,
    .call .findMany, .log,
    .log, .log,
    .call .findMany, .log,
    .call .findMany, .log,
    .log, .log,
    .call .findMany, .log,
    .log, .log,
    .call .findMany, .log, .log,
    .log, .log,
    .call .count, .call .count, .call .count, .log,
    .call .findMany, .log, .log,
    .log, .log,
    .call .upsert, .log,
    .log, .log,
    .call .updateMany, .log,
    .log, .log,
    .call .transaction, .log,
    .log, .log,
    .call .findMany, .log,
    .log, .log,
    .call .groupBy, .log, .log,
    .log] .done

/-! ## Client construction and the top-level promise chain. -/

/-- The environment value of DATABASE_URL: `none` when the variable is
unset, `some s` when it is set to the string `s`. -/
abbrev EnvVar := Option String

/-- JavaScript truthiness of an optional string: `undefined` and the
empty string are falsy. -/
def truthy : EnvVar → Bool
  | none => false
  | some s => if s = "" then false else true

/-- The accelerateUrl argument built by `process.env.DATABASE_URL!` (the
non-null assertion in queries.ts line 5, example-queries.ts line 5 and
part_001 line 463): the assertion is erased at runtime, so the value is
passed through unchanged, `undefined` included. -/
def bangClientArg (env : EnvVar) : EnvVar := env

/-- The accelerateUrl argument built by the conditional in
src/unnamed/part_000 lines 4-8:
`DATABASE_URL ? { accelerateUrl: DATABASE_URL } : { accelerateUrl: '' }`. -/
def verifyClientArg (env : EnvVar) : EnvVar :=
  if truthy env then env else some ""

/-- The top-level catch handler of a script: whether it prints the error
(all four scripts do), and the exit code it requests via `process.exit`
(`none` when the handler does not call `process.exit`). -/
structure CatchHandler where
  prints : Bool
  exitCode : Option Nat
deriving DecidableEq, Repr

/-- A runnable script: its body, its top-level catch handler, whether a
`.finally` calls `$disconnect`, how the accelerateUrl is computed from
the environment, and the module's export list. -/
structure Script where
  body : Prog
  handler : CatchHandler
  finallyDisconnect : Bool
  clientArg : EnvVar → EnvVar
  exports : List String

/-- src/queries.ts: `main().catch((e) => { console.error(e);
process.exit(1); }).finally(async () => { await prisma.$disconnect(); })`.
The module has no export statement. -/
def queriesScript : Script :=
  { body := queriesMain
    handler := { prints := true, exitCode := some 1 }
    finallyDisconnect := true
    clientArg := bangClientArg
    exports := [] }

/-- src/example-queries.ts: `main().catch((e) => { console.error('Error:', e);
process.exit(1); }).finally(() => prisma.$disconnect())`. No exports. -/
def exampleScript : Script :=
  { body := exampleMain
    handler := { prints := true, exitCode := some 1 }
    finallyDisconnect := true
    clientArg := bangClientArg
    exports := [] }

/-- src/unnamed/part_000: `verify().catch(console.error).finally(() =>
prisma.$disconnect())`. The catch prints but does not call `process.exit`.
No exports. -/
def verifyScript : Script :=
  { body := verify
    handler := { prints := true, exitCode := none }
    finallyDisconnect := true
    clientArg := verifyClientArg
    exports := [] }

/-- src/unnamed/part_001: `runAllExamples().catch(console.error)
.finally(() => prisma.$disconnect())`. No exports. -/
def advancedScript : Script :=
  { body := runAllExamples
    handler := { prints := true, exitCode := none }
    finallyDisconnect := true
    clientArg := bangClientArg
    exports := [] }

/-- The four runnable scripts of the repository. -/
def runnableScripts : List Script :=
  [queriesScript, exampleScript, verifyScript, advancedScript]

/-- Observable outcome of one whole script run: the event trace of the
body, how many times `$disconnect` ran, the process exit status, and
whether the top-level handler printed an error. -/
structure RunResult where
  trace : List Event
  disconnects : Nat
  exitCode : Nat
  printedError : Bool
deriving DecidableEq, Repr

/-- Runs a script to completion under an oracle, modelling the Node
semantics of `body().catch(handler).finally(disconnect)`:

* if the body does not raise, the finally callback runs (`$disconnect`
  once) and the process exits with status 0;
* if the body raises, the catch handler runs; when it calls
  `process.exit(c)`, the process terminates immediately with status `c`
  and the pending finally microtask never runs, so `$disconnect` is not
  invoked; when it does not exit, the rejection is considered handled,
  the finally callback runs, and the process exits with status 0. -/
def runScript (s : Script) (o : Nat → Bool) : RunResult :=
  let e := exec s.body o 0
  if e.2.1 = .raised then
    match s.handler.exitCode with
    | some c => { trace := e.1, disconnects := 0, exitCode := c,
                  printedError := s.handler.prints }
    | none => { trace := e.1,
                disconnects := if s.finallyDisconnect then 1 else 0,
                exitCode := 0, printedError := s.handler.prints }
  else
    { trace := e.1,
      disconnects := if s.finallyDisconnect then 1 else 0,
      exitCode := 0, printedError := false }

/-- The six ORM methods named by the spec sentence about the example
scripts. -/
def sixMethods : List Method :=
  [.create, .findMany, .update, .delete, .transaction, .groupBy]

/-- Whether a program has a call site for each of the six methods. -/
def callsAllSix (p : Prog) : Bool :=
  sixMethods.all fun m => (progMethods p).contains m

/-! ## Sequentiality of awaited calls. -/

/-- Traces in which every ORM call completes before the next event: each
`begin` is immediately followed by the matching `fin`. -/
inductive SeqTrace : List Event → Prop where
  | nil : SeqTrace []
  | print {t : List Event} : SeqTrace t → SeqTrace (.print :: t)
  | pair {t : List Event} (m : Method) : SeqTrace t →
      SeqTrace (.begin m :: .fin m :: t)

theorem SeqTrace.append {a b : List Event} (ha : SeqTrace a)
    (hb : SeqTrace b) : SeqTrace (a ++ b) := by
  induction ha with
  | nil => simpa using hb
  | print _ ih => exact .print ih
  | pair m _ ih => exact .pair m ih

/-- Running maximum of the number of ORM calls in flight along a trace:
`cur` calls are currently open, `mx` is the maximum seen so far. -/
def maxInflightAux : List Event → Nat → Nat → Nat
  | [], _, mx => mx
  | .begin _ :: rest, cur, mx => maxInflightAux rest (cur + 1) (max mx (cur + 1))
  | .fin _ :: rest, cur, mx => maxInflightAux rest (cur - 1) mx
  | .print :: rest, cur, mx => maxInflightAux rest cur mx

/-- The largest number of ORM calls simultaneously in flight during a
trace. -/
def maxInflight (t : List Event) : Nat :=
  maxInflightAux t 0 0

theorem maxInflightAux_le_of_seq {t : List Event} (ht : SeqTrace t) :
    ∀ mx, maxInflightAux t 0 mx ≤ max mx 1 := by
  induction ht with
  | nil => intro mx; simp [maxInflightAux]
  | print _ ih => intro mx; simpa [maxInflightAux] using ih mx
  | pair m _ ih =>
    intro mx
    have h := ih (max mx 1)
    simp only [maxInflightAux, Nat.add_sub_cancel] at h ⊢
    calc maxInflightAux _ 0 (max mx (0 + 1)) = maxInflightAux _ 0 (max mx 1) := by
          norm_num
      _ ≤ max (max mx 1) 1 := h
      _ = max mx 1 := by rw [max_assoc, max_self]

theorem maxInflight_le_one {t : List Event} (ht : SeqTrace t) :
    maxInflight t ≤ 1 := by
  have h := maxInflightAux_le_of_seq ht 0
  simpa [maxInflight] using h

/-- A body whose ORM calls are all awaited produces a sequential trace
under every oracle. -/
theorem exec_seqTrace : ∀ (p : Prog), noFire p = true →
    ∀ (o : Nat → Bool) (k : Nat), SeqTrace (exec p o k).1
  | .done, _, o, k => .nil
  | .ret, _, o, k => .nil
  | .log rest, hp, o, k => by
    have ih := exec_seqTrace rest (by simpa [noFire] using hp) o k
    simpa [exec] using SeqTrace.print ih
  | .call m rest, hp, o, k => by
    by_cases h : o k
    · have ih := exec_seqTrace rest (by simpa [noFire] using hp) o (k + 1)
      simpa [exec, h] using SeqTrace.pair m ih
    · simp only [exec, h, if_false, Bool.false_eq_true]
      exact SeqTrace.pair m .nil
  | .fire m rest, hp, o, k => by simp [noFire] at hp
  | .tryc b h rest, hp, o, k => by
    simp only [noFire, Bool.and_eq_true] at hp
    obtain ⟨⟨hb, hh⟩, hr⟩ := hp
    have sb := exec_seqTrace b hb o k
    simp only [exec]
    rcases heb : exec b o k with ⟨tb, resb, kb⟩
    rw [heb] at sb
    cases resb with
    | ok =>
      exact SeqTrace.append sb (exec_seqTrace rest hr o kb)
    | retd => exact sb
    | raised =>
      have sh := exec_seqTrace h hh o kb
      rcases heh : exec h o kb with ⟨th, resh, kh⟩
      rw [heh] at sh
      cases resh with
      | ok =>
        exact SeqTrace.append (SeqTrace.append sb sh)
          (exec_seqTrace rest hr o kh)
      | retd => exact SeqTrace.append sb sh
      | raised => exact SeqTrace.append sb sh

/-- A body with no try/catch and no early return either falls through or
raises: every ORM error aborts the body and reaches the top-level
handler. -/
theorem exec_no_retd : ∀ (p : Prog), countTry p = 0 → noRet p = true →
    ∀ (o : Nat → Bool) (k : Nat),
    (exec p o k).2.1 = .ok ∨ (exec p o k).2.1 = .raised
  | .done, _, _, o, k => Or.inl rfl
  | .ret, _, hr, o, k => by simp [noRet] at hr
  | .log rest, ht, hr, o, k => by
    have ih := exec_no_retd rest (by simpa [countTry] using ht)
      (by simpa [noRet] using hr) o k
    simpa [exec] using ih
  | .call m rest, ht, hr, o, k => by
    by_cases h : o k
    · have ih := exec_no_retd rest (by simpa [countTry] using ht)
        (by simpa [noRet] using hr) o (k + 1)
      simpa [exec, h] using ih
    · simp [exec, h]
  | .fire m rest, ht, hr, o, k => by
    have ih := exec_no_retd rest (by simpa [countTry] using ht)
      (by simpa [noRet] using hr) o (k + 1)
    simpa [exec] using ih
  | .tryc b h rest, ht, hr, o, k => by
    simp [countTry] at ht

/-! ## The user table touched by src/example-queries.ts.

The script creates a user with email charlie@prisma.io (with a nested
post), reads, updates the same user by that unique email, and deletes it
by that email. Only the user-table effects matter for the round-trip
claim; reads and the nested post creation do not change the user table.
The sequential application of the step functions is exactly the
no-concurrent-writers assumption of the claim. -/

/-- A row of the User table: the unique email and the optional display
name (the id and timestamp columns play no role in the claim). -/
structure User where
  email : String
  name : Option String
deriving DecidableEq, Repr

/-- `prisma.user.create`: inserts the row, or fails (unique-constraint
violation) when a row with the same email exists. -/
def createUser (db : List User) (u : User) : Option (List User) :=
  if db.any (fun v => v.email == u.email) then none
  else some (db ++ [u])

/-- `prisma.user.update({ where: { email: e }, data: { name: n } })`:
renames the rows with email `e`, or fails when none exists. -/
def updateUserName (db : List User) (e : String) (n : Option String) :
    Option (List User) :=
  if db.any (fun v => v.email == e) then
    some (db.map fun v => if v.email == e then { v with name := n } else v)
  else none

/-- `prisma.user.delete({ where: { email: e } })`: removes the rows with
email `e`, or fails when none exists. -/
def deleteUser (db : List User) (e : String) : Option (List User) :=
  if db.any (fun v => v.email == e) then
    some (db.filter fun v => !(v.email == e))
  else none

/-- The user-table mutations of `main` in src/example-queries.ts, in
source order: create charlie (line 16), update charlie to Charles
(line 59), delete charlie (line 70). The intervening findMany,
findUnique and count calls read only. -/
def exampleUserSteps (db : List User) : Option (List User) :=
  (createUser db { email := "charlie@prisma.io", name := some "Charlie" }).bind
    fun db1 =>
      (updateUserName db1 "charlie@prisma.io" (some "Charles")).bind
        fun db2 => deleteUser db2 "charlie@prisma.io"

theorem any_email_eq_false {db : List User} {e : String}
    (h : ∀ v ∈ db, v.email ≠ e) :
    db.any (fun v => v.email == e) = false := by
  induction db with
  | nil => rfl
  | cons a t ih =>
    simp only [List.any_cons, Bool.or_eq_false_iff]
    refine ⟨by simpa using h a (List.mem_cons_self a t), ?_⟩
    exact ih fun v hv => h v (List.mem_cons_of_mem a hv)

theorem map_rename_of_absent {db : List User} {e : String}
    {n : Option String} (h : ∀ v ∈ db, v.email ≠ e) :
    (db.map fun v =>
      if v.email = e then { email := v.email, name := n } else v) = db := by
  induction db with
  | nil => rfl
  | cons a t ih =>
    have ha : a.email ≠ e := h a (List.mem_cons_self a t)
    simp only [List.map_cons]
    rw [if_neg ha, ih fun v hv => h v (List.mem_cons_of_mem a hv)]

theorem filter_keep_of_absent {db : List User} {e : String}
    (h : ∀ v ∈ db, v.email ≠ e) :
    (db.filter fun v => !(v.email == e)) = db := by
  induction db with
  | nil => rfl
  | cons a t ih =>
    have ha : (a.email == e) = false := by
      simpa using h a (List.mem_cons_self a t)
    simp only [List.filter_cons, ha, Bool.not_false, if_true]
    rw [ih fun v hv => h v (List.mem_cons_of_mem a hv)]

/-! ## The claims. -/

/-- Claim C1, counterexample. The claim says every ORM error is caught by
a top-level handler that prints it and exits with a non-zero status. In
src/unnamed/part_001 the chain is `runAllExamples().catch(console.error)`:
under an oracle failing every call the body raises and the handler prints,
but the process exits with status 0, not a non-zero status. -/
theorem advancedErrorExitCodeZero :
    (exec runAllExamples (fun _ => false) 0).2.1 = .raised ∧
    (runScript advancedScript (fun _ => false)).printedError = true ∧
    (runScript advancedScript (fun _ => false)).exitCode = 0 := by decide

/-- Claim C1, amended: whenever an ORM error escapes a script body, the
single top-level catch prints it; queries.ts and example-queries.ts then
exit with status 1, while the verification and advanced-examples scripts
exit with status 0. -/
theorem topLevelErrorHandling (o : Nat → Bool) :
    ((exec queriesMain o 0).2.1 = .raised →
      (runScript queriesScript o).printedError = true ∧
      (runScript queriesScript o).exitCode = 1) ∧
    ((exec exampleMain o 0).2.1 = .raised →
      (runScript exampleScript o).printedError = true ∧
      (runScript exampleScript o).exitCode = 1) ∧
    ((exec verify o 0).2.1 = .raised →
      (runScript verifyScript o).printedError = true ∧
      (runScript verifyScript o).exitCode = 0) ∧
    ((exec runAllExamples o 0).2.1 = .raised →
      (runScript advancedScript o).printedError = true ∧
      (runScript advancedScript o).exitCode = 0) := by
  refine ⟨fun h => ?_, fun h => ?_, fun h => ?_, fun h => ?_⟩ <;>
    simp [runScript, queriesScript, exampleScript, verifyScript,
      advancedScript, h]

/-- Claim C1, witness: the amended theorem applied at oracles that make
each body raise (for verify, the first failure must be in the findMany
region, since earlier failures are recovered by the inner catches). -/
theorem topLevelErrorHandlingApplied :
    (runScript queriesScript (fun _ => false)).exitCode = 1 ∧
    (runScript exampleScript (fun _ => false)).exitCode = 1 ∧
    (runScript verifyScript (fun n => decide (n < 3))).exitCode = 0 ∧
    (runScript advancedScript (fun _ => false)).exitCode = 0 :=
  ⟨((topLevelErrorHandling (fun _ => false)).1 (by decide)).2,
   ((topLevelErrorHandling (fun _ => false)).2.1 (by decide)).2,
   ((topLevelErrorHandling (fun n => decide (n < 3))).2.2.1 (by decide)).2,
   ((topLevelErrorHandling (fun _ => false)).2.2.2 (by decide)).2⟩

/-- Claim C2, counterexample. The claim says there are exactly three
runnable scripts and each invokes create, findMany, update, delete,
$transaction and groupBy. The repository has four runnable scripts, and
already the first one (queries.ts) calls only create and findMany. -/
theorem scriptInventoryCx :
    ¬(runnableScripts.length = 3 ∧
      ∀ s ∈ runnableScripts, callsAllSix s.body = true) := by decide

/-- Claim C2, amended: there are four runnable scripts; collectively
their call sites cover create, findMany, update, delete, $transaction
and groupBy, and every script prints to the console, but no single
script invokes all six methods. -/
theorem scriptMethodCoverage :
    runnableScripts.length = 4 ∧
    (sixMethods.all fun m =>
      runnableScripts.any fun s => (progMethods s.body).contains m) = true ∧
    (runnableScripts.all fun s => !callsAllSix s.body) = true ∧
    (runnableScripts.all fun s => containsLog s.body) = true := by decide

/-- Claim C3, counterexample. The claim says $disconnect runs exactly
once on both the success and the error path of every script. On the
error path of example-queries.ts the catch handler calls
process.exit(1), which terminates the process before the pending finally
microtask, so $disconnect never runs. -/
theorem exampleErrorPathNoDisconnect :
    (exec exampleMain (fun _ => false) 0).2.1 = .raised ∧
    (runScript exampleScript (fun _ => false)).disconnects = 0 := by decide

/-- Claim C3, amended: $disconnect runs exactly once on the success path
of every script and on the error path of the two scripts whose catch
handler does not call process.exit; on the error path of queries.ts and
example-queries.ts the process exits before the finally callback and
$disconnect does not run. -/
theorem disconnectBehavior (o : Nat → Bool) :
    ((exec queriesMain o 0).2.1 ≠ .raised →
      (runScript queriesScript o).disconnects = 1) ∧
    ((exec queriesMain o 0).2.1 = .raised →
      (runScript queriesScript o).disconnects = 0) ∧
    ((exec exampleMain o 0).2.1 ≠ .raised →
      (runScript exampleScript o).disconnects = 1) ∧
    ((exec exampleMain o 0).2.1 = .raised →
      (runScript exampleScript o).disconnects = 0) ∧
    (runScript verifyScript o).disconnects = 1 ∧
    (runScript advancedScript o).disconnects = 1 := by
  refine ⟨fun h => ?_, fun h => ?_, fun h => ?_, fun h => ?_, ?_, ?_⟩
  · simp [runScript, queriesScript, h]
  · simp [runScript, queriesScript, h]
  · simp [runScript, exampleScript, h]
  · simp [runScript, exampleScript, h]
  · by_cases h : (exec verify o 0).2.1 = .raised <;>
      simp [runScript, verifyScript, h]
  · by_cases h : (exec runAllExamples o 0).2.1 = .raised <;>
      simp [runScript, advancedScript, h]

/-- Claim C3, witness: the amended theorem applied at an all-success
oracle and at an all-failure oracle. -/
theorem disconnectBehaviorApplied :
    (runScript queriesScript (fun _ => true)).disconnects = 1 ∧
    (runScript queriesScript (fun _ => false)).disconnects = 0 ∧
    (runScript exampleScript (fun _ => false)).disconnects = 0 ∧
    (runScript verifyScript (fun _ => false)).disconnects = 1 :=
  ⟨(disconnectBehavior (fun _ => true)).1 (by decide),
   (disconnectBehavior (fun _ => false)).2.1 (by decide),
   (disconnectBehavior (fun _ => false)).2.2.2.1 (by decide),
   (disconnectBehavior (fun _ => false)).2.2.2.2.1⟩

/-- Claim C4, confirmed: in every runnable script each ORM call is
awaited to completion before the next one starts, so under every oracle
at most one ORM call of a run is in flight at any point of the trace. -/
theorem sequentialExecution (o : Nat → Bool) :
    maxInflight (exec queriesMain o 0).1 ≤ 1 ∧
    maxInflight (exec exampleMain o 0).1 ≤ 1 ∧
    maxInflight (exec verify o 0).1 ≤ 1 ∧
    maxInflight (exec runAllExamples o 0).1 ≤ 1 :=
  ⟨maxInflight_le_one (exec_seqTrace queriesMain rfl o 0),
   maxInflight_le_one (exec_seqTrace exampleMain rfl o 0),
   maxInflight_le_one (exec_seqTrace verify rfl o 0),
   maxInflight_le_one (exec_seqTrace runAllExamples rfl o 0)⟩

/-- Claim C5, counterexample. The claim says no script has an inner
try/catch and every ORM error reaches the top-level handler. The verify
script has two inner try/catch blocks, and under an oracle failing every
call the connection error is recovered locally (the body early-returns
instead of raising) and the top-level handler never prints. -/
theorem verifyInnerCatchCx :
    countTry verify = 2 ∧
    (exec verify (fun _ => false) 0).2.1 = .retd ∧
    (runScript verifyScript (fun _ => false)).printedError = false := by decide

/-- Claim C5, amended: queries.ts, example-queries.ts and the advanced
examples script contain no inner try/catch, so each of their runs either
completes or raises to the top-level handler; the verification script
has two inner try/catch blocks that recover locally. -/
theorem innerCatchStructure :
    countTry queriesMain = 0 ∧ countTry exampleMain = 0 ∧
    countTry runAllExamples = 0 ∧ countTry verify = 2 ∧
    (∀ o : Nat → Bool, (exec queriesMain o 0).2.1 = .ok ∨
      (exec queriesMain o 0).2.1 = .raised) ∧
    (∀ o : Nat → Bool, (exec exampleMain o 0).2.1 = .ok ∨
      (exec exampleMain o 0).2.1 = .raised) ∧
    (∀ o : Nat → Bool, (exec runAllExamples o 0).2.1 = .ok ∨
      (exec runAllExamples o 0).2.1 = .raised) :=
  ⟨rfl, rfl, rfl, rfl,
   fun o => exec_no_retd queriesMain rfl rfl o 0,
   fun o => exec_no_retd exampleMain rfl rfl o 0,
   fun o => exec_no_retd runAllExamples rfl rfl o 0⟩

/-- Claim C6, counterexample. The claim says the accelerateUrl equals
process.env.DATABASE_URL for every script. In an environment where
DATABASE_URL is unset the verification script passes the empty string,
not the undefined environment value. -/
theorem verifyClientArgUnsetCx :
    verifyScript.clientArg none ≠ none := by decide

/-- Claim C6, amended: queries.ts, example-queries.ts and the advanced
examples script pass process.env.DATABASE_URL through unchanged; the
verification script passes it when it is set (empty or not) and the
empty string when it is unset. -/
theorem clientArgBehavior :
    (∀ env : EnvVar, queriesScript.clientArg env = env) ∧
    (∀ env : EnvVar, exampleScript.clientArg env = env) ∧
    (∀ env : EnvVar, advancedScript.clientArg env = env) ∧
    (∀ s : String, verifyScript.clientArg (some s) = some s) ∧
    verifyScript.clientArg none = some "" := by
  refine ⟨fun env => rfl, fun env => rfl, fun env => rfl, fun s => ?_, rfl⟩
  by_cases h : s = ""
  · simp [verifyScript, verifyClientArg, truthy, h]
  · simp [verifyScript, verifyClientArg, truthy, h]

/-- Claim C7, confirmed: none of the four script modules exports any
symbol, and each logs to the console; their only produced interface is
the terminal log plus the exit status modelled in `runScript`. -/
theorem noExportsLeafScripts :
    (runnableScripts.all fun s => s.exports.isEmpty) = true ∧
    (runnableScripts.all fun s => containsLog s.body) = true := by decide

/-- Claim C8, confirmed: the client construction of the verification
script is total in the environment: it always passes a defined string
(the empty string when DATABASE_URL is unset), whereas a script using
the non-null assertion passes the undefined value through when the
variable is unset. -/
theorem verifyClientArgTotal :
    (∀ env : EnvVar, ∃ s : String, verifyScript.clientArg env = some s) ∧
    verifyScript.clientArg none = some "" ∧
    queriesScript.clientArg none = none := by
  refine ⟨fun env => ?_, rfl, rfl⟩
  cases env with
  | none => exact ⟨"", rfl⟩
  | some s =>
    by_cases h : s = ""
    · exact ⟨"", by simp [verifyScript, verifyClientArg, truthy, h]⟩
    · exact ⟨s, by simp [verifyScript, verifyClientArg, truthy, h]⟩

/-- Claim C9, confirmed: in the verify script, a failed connection test
means the run issues only the $connect call and early-returns without
raising; a failed count check (first or second count) means no findMany
is ever attempted and the run early-returns without raising. -/
theorem verifyEarlyReturn (o : Nat → Bool) :
    (o 0 = false →
      beginsOf (exec verify o 0).1 = [.connect] ∧
      (exec verify o 0).2.1 = .retd) ∧
    (o 0 = true → o 1 = false →
      beginsOf (exec verify o 0).1 = [.connect, .count] ∧
      (exec verify o 0).2.1 = .retd) ∧
    (o 0 = true → o 1 = true → o 2 = false →
      beginsOf (exec verify o 0).1 = [.connect, .count, .count] ∧
      (exec verify o 0).2.1 = .retd) := by
  refine ⟨fun h0 => ?_, fun h0 h1 => ?_, fun h0 h1 h2 => ?_⟩
  · simp [verify, exec, beginsOf, h0]
  · simp [verify, exec, beginsOf, h0, h1]
  · simp [verify, exec, beginsOf, h0, h1, h2]

/-- Claim C9, witness: the theorem applied at oracles failing the
connection test, the first count, and the second count. -/
theorem verifyEarlyReturnApplied :
    beginsOf (exec verify (fun _ => false) 0).1 = [.connect] ∧
    beginsOf (exec verify (fun n => decide (n = 0)) 0).1 =
      [.connect, .count] ∧
    beginsOf (exec verify (fun n => decide (n < 2)) 0).1 =
      [.connect, .count, .count] :=
  ⟨((verifyEarlyReturn (fun _ => false)).1 rfl).1,
   ((verifyEarlyReturn (fun n => decide (n = 0))).2.1 rfl rfl).1,
   ((verifyEarlyReturn (fun n => decide (n < 2))).2.2 rfl rfl rfl).1⟩

/-- Claim C10, confirmed: example-queries.ts creates a user with email
charlie@prisma.io and later deletes by that same unique email; when no
user with that email exists beforehand and the steps run sequentially
(no concurrent writers), the user table after the delete step equals the
user table before the create step. -/
theorem crudRoundTrip (db : List User)
    (h : ∀ v ∈ db, v.email ≠ "charlie@prisma.io") :
    exampleUserSteps db = some db := by
  have hc : createUser db ⟨"charlie@prisma.io", some "Charlie"⟩ =
      some (db ++ [⟨"charlie@prisma.io", some "Charlie"⟩]) := by
    simp [createUser, any_email_eq_false h]
  have hu : updateUserName (db ++ [⟨"charlie@prisma.io", some "Charlie"⟩])
      "charlie@prisma.io" (some "Charles") =
      some (db ++ [⟨"charlie@prisma.io", some "Charles"⟩]) := by
    simp [updateUserName, List.any_append, List.map_append,
      map_rename_of_absent h, any_email_eq_false h]
  have hd : deleteUser (db ++ [⟨"charlie@prisma.io", some "Charles"⟩])
      "charlie@prisma.io" = some db := by
    simp [deleteUser, List.any_append, List.filter_append,
      filter_keep_of_absent h, any_email_eq_false h]
  simp [exampleUserSteps, hc, hu, hd]

/-- Claim C10, witness: the round trip applied to a table holding only
the alice row. -/
theorem crudRoundTripApplied :
    exampleUserSteps [⟨"alice@prisma.io", some "Alice"⟩] =
      some [⟨"alice@prisma.io", some "Alice"⟩] :=
  crudRoundTrip _ (by decide)

end Prisma
